import Mathlib

/-!
Verification development for the Valorant mid-game couch-assistant repository.

The live event-detection pipeline is shallowly embedded here:
* `src/grid_pipeline/datause.py`   — numeric bucketing, position regions, row building
* `src/grid_pipeline/schemas.py`   — `Position`, `Player`, `Snapshot`, `TacticalEvent`
* `src/grid_pipeline/polling.py`   — `GRIDPoller.poll_snapshot`, `GRIDPoller._save_history`,
  `SnapshotDiffer.diff`
* `src/grid_pipeline/event_log.py` — `TacticalEventLogger`
* `src/agents/data_agent.py`       — `DataAgent._run_polling` (one tick of the polling loop)
* `src/agents/VLM.py`              — `query_vlm` label parsing and the debounce logic of `run`

Python floats are modelled as `ℚ` (all arithmetic performed by the embedded code is
exact on the values it is given); Python `None` becomes `Option`; Python dicts keyed
by strings become insertion-ordered association lists `List (String × _)`; network
calls become explicit inputs (`Option _` for a fetch that may fail, `Except _ _` for a
request that may raise).  Wall-clock timestamps taken inside constructors
(`datetime.now()`) are threaded in as explicit arguments where a claim depends on the
field existing, and omitted otherwise.
-/

namespace Valorant

/-! ## datause.py — numeric helpers -/

/-- `datause.to_float`: coerce an optional numeric value.  The model's inputs are
already numeric-or-absent (`Option ℚ`); the source's NaN check and string-coercion
fallback concern values outside this domain. -/
def to_float (v : Option ℚ) : Option ℚ := v

/-- `datause.hp_bucket`: health bucket from current/max health. -/
def hp_bucket (current maximum : Option ℚ) : String :=
  match current, maximum with
  | none, _ => "unknown"
  | _, none => "unknown"
  | some c, some m =>
    if m = 0 then "unknown"
    else
      let ratio := c / m
      if ratio > 80/100 then "full"
      else if ratio > 30/100 then "damaged"
      else "critical"

/-- `datause.armor_bucket`. -/
def armor_bucket (armor : Option ℚ) : String :=
  match armor with
  | none => "unknown"
  | some a =>
    if a ≤ 0 then "none"
    else if a ≤ 25 then "light"
    else "heavy"

/-- `datause.clamp01`. -/
def clamp01 (v : ℚ) : ℚ := min (max v 0) (999999/1000000)

/-- Python `int(...)` on a rational: truncation toward zero. -/
def pyInt (q : ℚ) : ℤ := if 0 ≤ q then ⌊q⌋ else ⌈q⌉

/-- `datause.bin_index`. -/
def bin_index (v vmin vmax : ℚ) (n : ℕ) : ℤ :=
  let r := if |vmax - vmin| > 1/1000000000000 then (v - vmin) / (vmax - vmin) else 0
  let r := clamp01 r
  pyInt (r * n)

/-- Python `min` over a list. -/
def pyMin : List ℚ → Option ℚ
  | [] => none
  | x :: xs => some (xs.foldl min x)

/-- Python `max` over a list. -/
def pyMax : List ℚ → Option ℚ
  | [] => none
  | x :: xs => some (xs.foldl max x)

/-! ## datause.py — GraphQL series-state response shapes

These mirror the dict shapes read by `build_rows_from_series_state`: fields read
with `.get(...)` that may be absent are `Option`; list-valued fields read with
`or []` are plain lists (absent ≡ empty). -/

/-- A `position { x y }` object (values already passed through `to_float`). -/
structure PosJson where
  x : Option ℚ
  y : Option ℚ
deriving DecidableEq

/-- A `character { name }` object. -/
structure CharJson where
  name : Option String
deriving DecidableEq

/-- An `ItemStack` object of a `PlayerInventory`. -/
structure ItemJson where
  id : Option String
  name : Option String
  quantity : Option ℤ
  equipped : Option ℤ
  stashed : Option ℤ
deriving DecidableEq

/-- A `PlayerInventory` object: `{ items: [ItemStack] }`. -/
structure InvJson where
  items : List ItemJson
deriving DecidableEq

/-- A `GamePlayerStateValorant` object. -/
structure PlayerJson where
  id : Option String
  name : Option String
  alive : Option Bool
  participationStatus : Option String
  currentHealth : Option ℚ
  maxHealth : Option ℚ
  currentArmor : Option ℚ
  position : Option PosJson
  character : Option CharJson
  inventory : Option InvJson
deriving DecidableEq

/-- A team object of `seriesState.games[].teams[]`. -/
structure TeamJson where
  typename : String
  id : Option String
  name : Option String
  side : Option String
  players : List PlayerJson
deriving DecidableEq

/-- A game object of `seriesState.games[]`. -/
structure GameJson where
  id : Option String
  teams : List TeamJson
deriving DecidableEq

/-- The `seriesState` object returned by `fetch_series_state`. -/
structure SeriesStateJson where
  id : Option String
  games : List GameJson
deriving DecidableEq

/-- `datause.compute_game_bounds`: min/max x/y over all players of Valorant teams
that have both coordinates. -/
def compute_game_bounds (teams : List TeamJson) : Option (ℚ × ℚ × ℚ × ℚ) :=
  let pairs := teams.foldl (fun acc t =>
    if t.typename ≠ "GameTeamStateValorant" then acc
    else acc ++ (t.players.foldl (fun acc2 p =>
      match p.position with
      | none => acc2
      | some pos =>
        match to_float pos.x, to_float pos.y with
        | some x, some y => acc2 ++ [(x, y)]
        | _, _ => acc2) [])) []
  let xs := pairs.map Prod.fst
  let ys := pairs.map Prod.snd
  match pyMin xs, pyMax xs, pyMin ys, pyMax ys with
  | some minx, some maxx, some miny, some maxy =>
    let maxx := if |maxx - minx| < 1/1000000 then minx + 1 else maxx
    let maxy := if |maxy - miny| < 1/1000000 then miny + 1 else maxy
    some (minx, maxx, miny, maxy)
  | _, _, _, _ => none

/-- The four strings returned by `datause.region_labels`. -/
structure RegionLabels where
  region_rc : String
  x_band : String
  y_band : String
  pos_quadrant : String
deriving DecidableEq

/-- `datause.region_labels`. -/
def region_labels (x y : Option ℚ) (bounds : Option (ℚ × ℚ × ℚ × ℚ)) (n : ℕ) :
    RegionLabels :=
  match x, y, bounds with
  | some x, some y, some (minx, maxx, miny, maxy) =>
    let cx := bin_index x minx maxx n
    let cy := bin_index y miny maxy n
    let mx := (minx + maxx) / 2
    let my := (miny + maxy) / 2
    let east := x ≥ mx
    let north := y ≥ my
    let quad := if north ∧ east then "NE"
                else if north ∧ ¬east then "NW"
                else if ¬north ∧ east then "SE"
                else "SW"
    { region_rc := "R" ++ toString (cy + 1) ++ "C" ++ toString (cx + 1)
      x_band := "B" ++ toString (cx + 1)
      y_band := "B" ++ toString (cy + 1)
      pos_quadrant := quad }
  | _, _, _ =>
    { region_rc := "Unknown", x_band := "Unknown", y_band := "Unknown"
      pos_quadrant := "Unknown" }

/-! ## datause.py — inventory extraction -/

/-- Whitespace stripping on a character list (Python `str.strip()`). -/
def pyStripChars (l : List Char) : List Char :=
  ((l.dropWhile Char.isWhitespace).reverse.dropWhile Char.isWhitespace).reverse

/-- Python `str.strip()`. -/
def pyStrip (s : String) : String := String.mk (pyStripChars s.data)

/-- Python code-point comparison of strings (lexicographic on characters). -/
def pyStrLt : List Char → List Char → Bool
  | [], [] => false
  | [], _ :: _ => true
  | _ :: _, [] => false
  | c :: cs, d :: ds => if c < d then true else if d < c then false else pyStrLt cs ds

/-- Python `<` on `(int, int, str)` tuples, used by `extract_weapon_from_inventory`
for `cand > best` (i.e. `best < cand`). -/
def pyTupleLt (a b : ℤ × ℤ × String) : Bool :=
  if a.1 < b.1 then true
  else if b.1 < a.1 then false
  else if a.2.1 < b.2.1 then true
  else if b.2.1 < a.2.1 then false
  else pyStrLt a.2.2.data b.2.2.data

/-- `datause.extract_weapon_from_inventory`: pick the best equipped item name,
falling back to the first non-blank name. -/
def extract_weapon_from_inventory (inv : Option InvJson) : Option String :=
  match inv with
  | none => none
  | some iv =>
    match iv.items with
    | [] => none
    | items =>
      let st := items.foldl (fun (acc : Option (ℤ × ℤ × String) × Option String) it =>
        let (best, fallback) := acc
        match it.name with
        | none => (best, fallback)
        | some nm =>
          if pyStrip nm = "" then (best, fallback)
          else
            let fallback := match fallback with
              | some f => some f
              | none => some (pyStrip nm)
            let equipped := it.equipped.getD 0
            let quantity := it.quantity.getD 0
            if equipped > 0 then
              let cand := (equipped, quantity, pyStrip nm)
              match best with
              | none => (some cand, fallback)
              | some b => if pyTupleLt b cand then (some cand, fallback) else (best, fallback)
            else (best, fallback)) (none, none)
      match st.1 with
      | some b => some b.2.2
      | none => st.2

/-! ## datause.py — row building -/

/-- One row produced by `build_rows_from_series_state`. -/
structure Row where
  series_id : Option String
  game_id : Option String
  team_name : Option String
  side : Option String
  player_name : Option String
  alive : Option Bool
  participationStatus : Option String
  agent_raw : Option String
  hp_bucket : String
  armor_bucket : String
  pos_x : Option ℚ
  pos_y : Option ℚ
  region_rc : String
  x_band : String
  y_band : String
  pos_quadrant : String
  weapon_current : Option String
deriving DecidableEq

/-- The grid resolution constant `GRID_N`. -/
def GRID_N : ℕ := 8

/-- `datause.build_rows_from_series_state`: one row per player of each Valorant
team of each game of the series state. -/
def build_rows_from_series_state (ss : SeriesStateJson) : List Row :=
  ss.games.foldl (fun rows g =>
    let bounds := compute_game_bounds g.teams
    g.teams.foldl (fun rows t =>
      if t.typename ≠ "GameTeamStateValorant" then rows
      else t.players.foldl (fun rows p =>
        let x := to_float (match p.position with | none => none | some pos => pos.x)
        let y := to_float (match p.position with | none => none | some pos => pos.y)
        let agent_raw := match p.character with | none => none | some c => c.name
        let chp := to_float p.currentHealth
        let mhp := to_float p.maxHealth
        let arm := to_float p.currentArmor
        let reg := region_labels x y bounds GRID_N
        rows ++ [{
          series_id := ss.id
          game_id := g.id
          team_name := t.name
          side := t.side
          player_name := p.name
          alive := p.alive
          participationStatus := p.participationStatus
          agent_raw := agent_raw
          hp_bucket := hp_bucket chp mhp
          armor_bucket := armor_bucket arm
          pos_x := x
          pos_y := y
          region_rc := reg.region_rc
          x_band := reg.x_band
          y_band := reg.y_band
          pos_quadrant := reg.pos_quadrant
          weapon_current := extract_weapon_from_inventory p.inventory }]) rows) rows) []

/-! ## schemas.py — shared data model -/

/-- `schemas.Position`. -/
structure Position where
  x : Option ℚ := none
  y : Option ℚ := none
  region_rc : String := "Unknown"
  x_band : String := "Unknown"
  y_band : String := "Unknown"
  quadrant : String := "Unknown"
deriving DecidableEq

/-- `schemas.Player`. -/
structure Player where
  id : String
  name : String
  team_name : String
  side : String
  agent : String
  alive : Bool
  hp_bucket : String
  armor_bucket : String
  weapon : Option String := none
  position : Position := {}
deriving DecidableEq

/-- `schemas.Team`. -/
structure Team where
  team_name : String
  side : String
  players : List Player := []
deriving DecidableEq

/-- `schemas.Snapshot`.  The player dict is an insertion-ordered association
list with unique keys; `game_id` keeps the dynamic `Option` of the value
`rows[0]["game_id"]` actually stored there by `poll_snapshot`.  The
`datetime.now()` default of `timestamp` is threaded in by the caller. -/
structure Snapshot where
  series_id : String
  game_id : Option String
  timestamp : String
  teams : List Team := []
  players : List (String × Player) := []
deriving DecidableEq

/-- `schemas.TacticalEvent` (the `datetime.now()` timestamp field, which no
component ever reads, is omitted). -/
structure TacticalEvent where
  event_type : String
  description : String
  metadata : List (String × String)
deriving DecidableEq

/-! ## polling.py — GRIDPoller and SnapshotDiffer -/

/-- `GRIDPoller.poll_snapshot`: the network fetch is the explicit input
`fetched` (`none` models both a failed/empty `fetch_series_state` and an
exception caught by the handler); on a non-empty row list the snapshot is built
with `game_id` of the first row and an empty players mapping. -/
def poll_snapshot (fetched : Option SeriesStateJson) (series_id : String)
    (now : String) : Option Snapshot :=
  match fetched with
  | none => none
  | some state =>
    match build_rows_from_series_state state with
    | [] => none
    | r :: _ =>
      some { series_id := series_id, game_id := r.game_id, timestamp := now
             players := [] }

/-- One player's entry in the persisted history file. -/
structure HistPlayerEntry where
  alive : Bool
  hp_bucket : String
  weapon : Option String
deriving DecidableEq

/-- One snapshot's entry in the persisted history file. -/
structure HistEntry where
  series_id : String
  game_id : Option String
  timestamp : String
  players : List (String × HistPlayerEntry)
deriving DecidableEq

/-- The dict built per snapshot by `GRIDPoller._save_history`. -/
def serializeSnap (s : Snapshot) : HistEntry :=
  { series_id := s.series_id, game_id := s.game_id, timestamp := s.timestamp
    players := s.players.map (fun pp => (pp.1, ⟨pp.2.alive, pp.2.hp_bucket, pp.2.weapon⟩)) }

/-- Python `l[-n:]`. -/
def takeLast (n : ℕ) (l : List α) : List α := l.drop (l.length - n)

/-- `GRIDPoller._save_history`: the JSON array written to `DATA/history.json` —
the serialization of the last 50 snapshots of the in-memory history. -/
def save_history (snapshot_history : List Snapshot) : List HistEntry :=
  (takeLast 50 snapshot_history).map serializeSnap

/-- Python truthiness of an optional string (`None` and `""` are falsy). -/
def pyTruthy (w : Option String) : Bool :=
  match w with
  | none => false
  | some s => s ≠ ""

/-- A change event emitted by `SnapshotDiffer.diff`: the two dict shapes
`{"type": "PLAYER_DIED", "player": …, "team": …}` and
`{"type": "WEAPON_CHANGE", "player": …, "old_weapon": …, "new_weapon": …}`. -/
inductive ChangeEvent where
  | playerDied (player : Player) (team : String)
  | weaponChange (player : Player) (old_weapon new_weapon : Option String)
deriving DecidableEq

/-- The loop body of `SnapshotDiffer.diff` over the new snapshot's players. -/
def diff_players (oldPlayers : List (String × Player)) :
    List (String × Player) → List ChangeEvent
  | [] => []
  | (pid, new_p) :: rest =>
    match oldPlayers.lookup pid with
    | none => diff_players oldPlayers rest
    | some old_p =>
      ((if old_p.alive && !new_p.alive then
          [ChangeEvent.playerDied new_p new_p.team_name] else []) ++
       (if decide (old_p.weapon ≠ new_p.weapon) && pyTruthy new_p.weapon then
          [ChangeEvent.weaponChange new_p old_p.weapon new_p.weapon] else []))
      ++ diff_players oldPlayers rest

/-- `SnapshotDiffer.diff`. -/
def diff (old : Option Snapshot) (new : Snapshot) : List ChangeEvent :=
  match old with
  | none => []
  | some o => diff_players o.players new.players

/-! ## event_log.py — TacticalEventLogger -/

/-- The mutable state of a `TacticalEventLogger`. -/
structure TacticalLoggerState where
  event_log : List TacticalEvent
  conclusions : List String
deriving DecidableEq

/-- `TacticalEventLogger.__init__`. -/
def initLogger : TacticalLoggerState := { event_log := [], conclusions := [] }

/-- `TacticalEventLogger._add_conclusion`. -/
def add_conclusion (conclusions : List String) (text : String) : List String :=
  if text ∈ conclusions then conclusions else conclusions ++ [text]

/-- `TacticalEventLogger.process_change`. -/
def process_change (change : ChangeEvent) (current_snapshot : Snapshot)
    (st : TacticalLoggerState) : TacticalLoggerState :=
  match change with
  | .playerDied player _team =>
    let alive_count := (current_snapshot.players.filter (fun pp => pp.2.alive)).length
    let total_players := current_snapshot.players.length
    if (alive_count : ℤ) = (total_players : ℤ) - 1 then
      let event : TacticalEvent :=
        { event_type := "FIRST_DEATH"
          description := "First death of the round: " ++ player.name ++ " (" ++
            player.team_name ++ ")"
          metadata := [
            ("player", player.name),
            ("team", player.team_name),
            ("position", player.position.region_rc ++ " (" ++
              player.position.quadrant ++ ")"),
            ("side", player.side)] }
      { event_log := st.event_log ++ [event]
        conclusions := add_conclusion st.conclusions
          ("Entry engagement lost by " ++ player.team_name ++ " at " ++
            player.position.region_rc ++ ".") }
    else st
  | .weaponChange player _old_w new_w =>
    match new_w with
    | some w =>
      if w ∈ ["Vandal", "Phantom", "Operator"] then
        let text := player.name ++ " upgraded to " ++ w ++ ". Strength increased."
        { st with conclusions := add_conclusion st.conclusions text }
      else st
    | none => st

/-- `TacticalEventLogger.get_tactical_conclusions`: the last 5 insights. -/
def get_tactical_conclusions (st : TacticalLoggerState) : List String :=
  takeLast 5 st.conclusions

/-! ## data_agent.py — one tick of `DataAgent._run_polling` -/

/-- The poller/logger state owned by the polling loop. -/
structure PollState where
  last_snapshot : Option Snapshot
  snapshot_history : List Snapshot
  history_file : Option (List HistEntry)
  logger : TacticalLoggerState
deriving DecidableEq

/-- The state before the loop's first tick: `GRIDPoller.__init__` and
`TacticalEventLogger.__init__`; no history file has been written yet. -/
def initPollState : PollState :=
  { last_snapshot := none, snapshot_history := [], history_file := none
    logger := initLogger }

/-- The observable operations of one tick of `DataAgent._run_polling`, in
execution order (`detect` is recorded once per change event fed to
`TacticalEventLogger.process_change`). -/
inductive PollOp where
  | appendHistory
  | persistHistory
  | diffSnapshots
  | detect
  | setPrevious
deriving DecidableEq

/-- One tick of the loop body of `DataAgent._run_polling`, lines 47–56 of
`data_agent.py`, together with the trace of operations it performs:
`poll_snapshot`; if a snapshot was returned, append it to
`snapshot_history`, `_save_history()`, `differ.diff(last_snapshot, snapshot)`,
`process_change` for each change, then `last_snapshot = snapshot`. -/
def run_tick (series_id : String) (st : PollState)
    (fetched : Option SeriesStateJson) (now : String) : PollState × List PollOp :=
  match poll_snapshot fetched series_id now with
  | none => (st, [])
  | some snapshot =>
    let history := st.snapshot_history ++ [snapshot]
    let file := save_history history
    let changes := diff st.last_snapshot snapshot
    let logger := changes.foldl (fun lg c => process_change c snapshot lg) st.logger
    ({ last_snapshot := some snapshot, snapshot_history := history
       history_file := some file, logger := logger },
     [PollOp.appendHistory, PollOp.persistHistory, PollOp.diffSnapshots] ++
       changes.map (fun _ => PollOp.detect) ++ [PollOp.setPrevious])

/-- The polling loop over a list of (fetch result, tick timestamp) inputs. -/
def run_polling (series_id : String) (st : PollState)
    (inputs : List (Option SeriesStateJson × String)) : PollState :=
  inputs.foldl (fun s inp => (run_tick series_id s inp.1 inp.2).1) st

/-! ## VLM.py — label parsing (`query_vlm`) -/

/-- Whether `pat` matches at the head of `l` (Python string equality on a
window). -/
def matchesAt : List Char → List Char → Bool
  | [], _ => true
  | _ :: _, [] => false
  | c :: cs, d :: ds => c = d && matchesAt cs ds

/-- Python `pat in s` on strings: substring containment. -/
def containsSub (pat : List Char) : List Char → Bool
  | [] => matchesAt pat []
  | d :: ds => matchesAt pat (d :: ds) || containsSub pat ds

/-- Python `str.upper()` (on the code points the pipeline handles). -/
def pyUpper (l : List Char) : List Char := l.map Char.toUpper

/-- The label list iterated by `query_vlm`, in source order. -/
def LABELS : List (List Char) :=
  ["KILL".data, "DEATH".data, "ROUND_END".data, "NO_EVENT".data]

/-- The label-extraction loop of `VLM.query_vlm`: the first label contained in
`text` (already stripped and upper-cased), defaulting to `NO_EVENT`. -/
def parseLabel (text : List Char) : List Char :=
  match LABELS.find? (fun lab => containsSub lab text) with
  | some lab => lab
  | none => "NO_EVENT".data

/-- The request timeout passed to `requests.post` in `VLM.query_vlm`. -/
def REQUEST_TIMEOUT : ℕ := 5

/-- `VLM.query_vlm` after the image encoding: the HTTP round-trip is the
explicit input — `Except.ok r` is the `response` string of a 200 reply,
`Except.error e` a raised exception with message `e` (both `except` arms
return the same sentinel).  Always returns; never raises. -/
def query_vlm (resp : Except (List Char) (List Char)) : List Char :=
  match resp with
  | .ok r => parseLabel (pyUpper (pyStripChars r))
  | .error e => ("ERROR: ").data ++ e

/-! ## VLM.py — the debounce logic of `VLM.run` -/

/-- `EVENT_COOLDOWN` (seconds). -/
def EVENT_COOLDOWN : ℚ := 2

/-- The `last_event_time` dict of `VLM.__init__`: exactly the three actionable
keys, each initially `0`. -/
structure LastEventTime where
  kill : ℚ
  death : ℚ
  roundEnd : ℚ
deriving DecidableEq

/-- `VLM.__init__`'s `last_event_time`. -/
def initLastEventTime : LastEventTime := { kill := 0, death := 0, roundEnd := 0 }

/-- `event in self.last_event_time` plus the dict read: `some` iff the event
string is one of the three actionable keys. -/
def lookupLET (st : LastEventTime) (event : String) : Option ℚ :=
  if event = "KILL" then some st.kill
  else if event = "DEATH" then some st.death
  else if event = "ROUND_END" then some st.roundEnd
  else none

/-- `self.last_event_time[event] = current_time` (only ever called on the three
existing keys). -/
def setLET (st : LastEventTime) (event : String) (t : ℚ) : LastEventTime :=
  if event = "KILL" then { st with kill := t }
  else if event = "DEATH" then { st with death := t }
  else if event = "ROUND_END" then { st with roundEnd := t }
  else st

/-- The debounce-and-report step of `VLM.run` (lines 231–241): given the
current state, the wall-clock time and the classification result, returns the
new state and whether the event was surfaced (printed). -/
def debounceStep (st : LastEventTime) (current_time : ℚ) (event : String) :
    LastEventTime × Bool :=
  match lookupLET st event with
  | some last =>
    if current_time - last > EVENT_COOLDOWN then (setLET st event current_time, true)
    else (st, false)
  | none =>
    if event = "NO_EVENT" then (st, true)
    else if containsSub ("ERROR").data event.data then (st, true)
    else (st, false)

/-- The classifier loop of `VLM.run` over a sequence of timestamped
classification results: the list of surfaced flags, one per result. -/
def runDebounce (st : LastEventTime) : List (ℚ × String) → List Bool
  | [] => []
  | (t, e) :: rest =>
    (debounceStep st t e).2 :: runDebounce (debounceStep st t e).1 rest

/-- Modelled from the spec: the debounce policy in the spec's own terms — a
mapping from actionable label to the timestamp at which that label was *last
surfaced*, initially absent. -/
structure LastSurfaced where
  kill : Option ℚ
  death : Option ℚ
  roundEnd : Option ℚ
deriving DecidableEq

/-- Modelled from the spec: no label has been surfaced yet. -/
def initLastSurfaced : LastSurfaced := { kill := none, death := none, roundEnd := none }

/-- Modelled from the spec: read the last-surfaced time of an actionable label
(`some none` for an actionable label never yet surfaced, `none` for a
non-actionable result). -/
def lookupLS (st : LastSurfaced) (event : String) : Option (Option ℚ) :=
  if event = "KILL" then some st.kill
  else if event = "DEATH" then some st.death
  else if event = "ROUND_END" then some st.roundEnd
  else none

/-- Modelled from the spec: record that an actionable label was surfaced now. -/
def setLS (st : LastSurfaced) (event : String) (t : ℚ) : LastSurfaced :=
  if event = "KILL" then { st with kill := some t }
  else if event = "DEATH" then { st with death := some t }
  else if event = "ROUND_END" then { st with roundEnd := some t }
  else st

/-- Modelled from the spec: an actionable result is surfaced iff strictly more
than the cooldown has elapsed since that same label was last surfaced, the
first occurrence always surfacing; `NO_EVENT` and error sentinels always
surface. -/
def debounceSpecStep (st : LastSurfaced) (current_time : ℚ) (event : String) :
    LastSurfaced × Bool :=
  match lookupLS st event with
  | some lastSurf =>
    match lastSurf with
    | none => (setLS st event current_time, true)
    | some ts =>
      if current_time - ts > EVENT_COOLDOWN then (setLS st event current_time, true)
      else (st, false)
  | none =>
    if event = "NO_EVENT" then (st, true)
    else if containsSub ("ERROR").data event.data then (st, true)
    else (st, false)

/-- Modelled from the spec: the surfaced flags of a result sequence under the
spec's debounce policy. -/
def runDebounceSpec (st : LastSurfaced) : List (ℚ × String) → List Bool
  | [] => []
  | (t, e) :: rest =>
    (debounceSpecStep st t e).2 :: runDebounceSpec (debounceSpecStep st t e).1 rest

/-- Modelled from the spec: "Parse the raw response by string-containment match
against the four labels, defaulting to `NO_EVENT` on no match" — the first of
the four labels contained as a substring of the upper-cased response. -/
def spec_first_label (upper : List Char) : List Char :=
  match LABELS.find? (fun lab => containsSub lab upper) with
  | some lab => lab
  | none => "NO_EVENT".data

/-- The simulation relation between the code's `last_event_time` (absent ≡ `0`)
and the spec's last-surfaced mapping. -/
def debounceRel (st : LastEventTime) (sst : LastSurfaced) : Prop :=
  st.kill = sst.kill.getD 0 ∧ st.death = sst.death.getD 0 ∧
    st.roundEnd = sst.roundEnd.getD 0

/-! ## Concrete inputs used by witnesses and counterexamples -/

/-- A series state whose row list is non-empty: one game, one Valorant team,
one player (no numeric fields, as the live feed may omit them all). -/
def ssMin : SeriesStateJson :=
  { id := some "2629390"
    games := [{
      id := some "g1"
      teams := [{
        typename := "GameTeamStateValorant"
        id := some "t1"
        name := some "Alpha"
        side := some "attacker"
        players := [{
          id := some "p1", name := some "P1", alive := some true
          participationStatus := none, currentHealth := none, maxHealth := none
          currentArmor := none, position := none, character := none
          inventory := none }] }] }] }

/-- The snapshot `poll_snapshot` builds from `ssMin` at timestamp `"t0"`. -/
def wSnap : Snapshot :=
  { series_id := "2629390", game_id := some "g1", timestamp := "t0", players := [] }

/-- A concrete alive player. -/
def wPlayerAlive : Player :=
  { id := "p1", name := "Neo", team_name := "Alpha", side := "attacker"
    agent := "Jett", alive := true, hp_bucket := "full", armor_bucket := "heavy"
    weapon := some "Vandal" }

/-- `wPlayerAlive` after dying (no other field changes). -/
def wPlayerDead : Player := { wPlayerAlive with alive := false }

/-- A concrete team-mate, unchanged between the two snapshots. -/
def wMate : Player :=
  { id := "p2", name := "Trin", team_name := "Alpha", side := "attacker"
    agent := "Sage", alive := true, hp_bucket := "full", armor_bucket := "heavy"
    weapon := some "Classic" }

/-- A concrete snapshot where both players are alive. -/
def wOld : Snapshot :=
  { series_id := "2629390", game_id := some "g1", timestamp := "t0"
    players := [("p1", wPlayerAlive), ("p2", wMate)] }

/-- `wOld` one tick later, after the single death of `p1`. -/
def wNew : Snapshot :=
  { series_id := "2629390", game_id := some "g1", timestamp := "t1"
    players := [("p1", wPlayerDead), ("p2", wMate)] }

/-- A concrete classification trace with wall-clock timestamps: two `KILL`s
within the cooldown, a third past it, repeated `NO_EVENT`s and an error
sentinel. -/
def wTrace : List (ℚ × String) :=
  [(10, "KILL"), (11, "KILL"), (14, "KILL"), (15, "NO_EVENT"), (15, "NO_EVENT"),
   (16, "ERROR: HTTPConnectionPool timeout")]

/-! ## Helper lemmas -/

/-- `_add_conclusion` preserves distinctness of the conclusion list. -/
theorem add_conclusion_nodup {cs : List String} (h : cs.Nodup) (t : String) :
    (add_conclusion cs t).Nodup := by
  unfold add_conclusion
  split
  · exact h
  · rename_i hni
    refine List.Nodup.append h (List.nodup_singleton t) ?_
    intro a ha hb
    rw [List.mem_singleton] at hb
    subst hb
    exact hni ha

/-- `process_change` preserves distinctness of the conclusion list. -/
theorem process_change_conclusions_nodup (c : ChangeEvent) (s : Snapshot)
    (st : TacticalLoggerState) (h : st.conclusions.Nodup) :
    ((process_change c s st).conclusions).Nodup := by
  cases c with
  | playerDied p t =>
    by_cases h2 : (((s.players.filter (fun pp => pp.2.alive)).length : ℤ)
        = (s.players.length : ℤ) - 1)
    · simpa [process_change, h2] using add_conclusion_nodup h _
    · simpa [process_change, h2] using h
  | weaponChange p ow nw =>
    cases nw with
    | none => simpa [process_change] using h
    | some w =>
      by_cases hw : w ∈ ["Vandal", "Phantom", "Operator"]
      · simpa [process_change, hw] using add_conclusion_nodup h _
      · simpa [process_change, hw] using h

/-- The persisted projection has at most 50 entries. -/
theorem save_history_length_le (hist : List Snapshot) :
    (save_history hist).length ≤ 50 := by
  unfold save_history takeLast
  rw [List.length_map, List.length_drop]
  omega

/-- One tick preserves the invariant that the persisted file (when present) is
the serialization of the last 50 in-memory snapshots. -/
theorem run_tick_preserves_file_inv (sid : String) (st : PollState)
    (f : Option SeriesStateJson) (now : String)
    (h : (st.history_file = none ∧ st.snapshot_history = []) ∨
      st.history_file = some (save_history st.snapshot_history)) :
    ((run_tick sid st f now).1.history_file = none ∧
       (run_tick sid st f now).1.snapshot_history = []) ∨
    (run_tick sid st f now).1.history_file
      = some (save_history (run_tick sid st f now).1.snapshot_history) := by
  unfold run_tick
  cases hp : poll_snapshot f sid now with
  | none => exact h
  | some snap => right; rfl

/-- The polling loop preserves the persisted-file invariant. -/
theorem run_polling_file_inv (sid : String)
    (inputs : List (Option SeriesStateJson × String)) :
    ∀ st : PollState,
      ((st.history_file = none ∧ st.snapshot_history = []) ∨
        st.history_file = some (save_history st.snapshot_history)) →
      (((run_polling sid st inputs).history_file = none ∧
          (run_polling sid st inputs).snapshot_history = []) ∨
        (run_polling sid st inputs).history_file
          = some (save_history (run_polling sid st inputs).snapshot_history)) := by
  induction inputs with
  | nil => intro st h; exact h
  | cons a rest ih =>
    intro st h
    exact ih _ (run_tick_preserves_file_inv sid st a.1 a.2 h)

/-- Players whose old state equals their new state produce no change events. -/
theorem diff_players_unchanged (oldPs : List (String × Player))
    (l : List (String × Player))
    (h : ∀ pp ∈ l, oldPs.lookup pp.1 = some pp.2) :
    diff_players oldPs l = [] := by
  induction l with
  | nil => rfl
  | cons a rest ih =>
    obtain ⟨pid, p⟩ := a
    have ha := h (pid, p) (List.mem_cons_self _ _)
    have hrest := ih (fun pp hpp => h pp (List.mem_cons_of_mem _ hpp))
    simp only [diff_players, ha]
    simp [hrest]

/-- The diff loop over the new players: when exactly one player has died and
nothing else changed, the only emitted event is that player's `PLAYER_DIED`. -/
theorem diff_players_single (oldPs : List (String × Player)) (dpid : String)
    (dp : Player) (halive : dp.alive = false)
    (hold : oldPs.lookup dpid = some { dp with alive := true }) :
    ∀ l : List (String × Player), (l.map Prod.fst).Nodup → (dpid, dp) ∈ l →
      (∀ pp ∈ l, pp.1 ≠ dpid → oldPs.lookup pp.1 = some pp.2) →
      diff_players oldPs l = [ChangeEvent.playerDied dp dp.team_name] := by
  intro l
  induction l with
  | nil => intro _ hmem _; cases hmem
  | cons a rest ih =>
    intro hkeys hmem hothers
    obtain ⟨pid, p⟩ := a
    rw [List.map_cons] at hkeys
    obtain ⟨hnotin, hkeys'⟩ := List.nodup_cons.mp hkeys
    rcases List.mem_cons.mp hmem with heq | hrest
    · injection heq with h1 h2
      subst h1
      subst h2
      have hrest0 : diff_players oldPs rest = [] := by
        apply diff_players_unchanged
        intro pp hpp
        apply hothers pp (List.mem_cons_of_mem _ hpp)
        intro hcontra
        apply hnotin
        have hm : pp.1 ∈ rest.map Prod.fst := List.mem_map_of_mem Prod.fst hpp
        rw [hcontra] at hm
        exact hm
      simp only [diff_players, hold]
      simp [halive, hrest0]
    · have hpid : pid ≠ dpid := by
        intro hc
        subst hc
        exact hnotin (by simpa using List.mem_map_of_mem Prod.fst hrest)
      have hhead := hothers (pid, p) (List.mem_cons_self _ _) hpid
      have hresteq := ih hkeys' hrest
        (fun pp hpp hne => hothers pp (List.mem_cons_of_mem _ hpp) hne)
      simp only [diff_players, hhead]
      simp [hresteq]

/-! ## Claims -/

/-- C9: the health bucket is `unknown` when current is missing or max is
missing or zero; otherwise `full` when current/max > 0.80, `damaged` when
0.30 < current/max ≤ 0.80, and `critical` when current/max ≤ 0.30. -/
theorem hp_bucket_ratio_thresholds :
    (∀ m, hp_bucket none m = "unknown") ∧
    (∀ c, hp_bucket c none = "unknown") ∧
    (∀ c, hp_bucket c (some 0) = "unknown") ∧
    (∀ c m : ℚ, m ≠ 0 → 4/5 < c / m → hp_bucket (some c) (some m) = "full") ∧
    (∀ c m : ℚ, m ≠ 0 → 3/10 < c / m → c / m ≤ 4/5 →
      hp_bucket (some c) (some m) = "damaged") ∧
    (∀ c m : ℚ, m ≠ 0 → c / m ≤ 3/10 → hp_bucket (some c) (some m) = "critical") := by
  refine ⟨fun m => ?_, fun c => ?_, fun c => ?_, ?_, ?_, ?_⟩
  · cases m <;> rfl
  · cases c <;> rfl
  · cases c <;> simp [hp_bucket]
  · intro c m hm h
    have h1 : (80 : ℚ)/100 < c / m := by linarith
    simp [hp_bucket, hm, h1]
  · intro c m hm h1 h2
    have h1' : (30 : ℚ)/100 < c / m := by linarith
    have h2' : ¬ ((80 : ℚ)/100 < c / m) := not_lt.mpr (by linarith)
    simp [hp_bucket, hm, h1', h2']
  · intro c m hm h
    have h1 : ¬ ((80 : ℚ)/100 < c / m) := not_lt.mpr (by linarith)
    have h2 : ¬ ((30 : ℚ)/100 < c / m) := not_lt.mpr (by linarith)
    simp [hp_bucket, hm, h1, h2]

/-- C9 witness: the thresholds evaluated at 90 %, 50 %, 10 % health and at a
missing current health. -/
theorem hp_bucket_ratio_thresholds_witness :
    hp_bucket (some 90) (some 100) = "full" ∧
    hp_bucket (some 50) (some 100) = "damaged" ∧
    hp_bucket (some 10) (some 100) = "critical" ∧
    hp_bucket none (some 100) = "unknown" :=
  ⟨hp_bucket_ratio_thresholds.2.2.2.1 90 100 (by norm_num) (by norm_num),
   hp_bucket_ratio_thresholds.2.2.2.2.1 50 100 (by norm_num) (by norm_num)
     (by norm_num),
   hp_bucket_ratio_thresholds.2.2.2.2.2 10 100 (by norm_num) (by norm_num),
   hp_bucket_ratio_thresholds.1 (some 100)⟩

/-- C2: for every `PLAYER_DIED` change and snapshot, `process_change` appends
exactly one `FIRST_DEATH` tactical event — with metadata player, team,
position, side — iff the alive count equals total players − 1, and appends
nothing otherwise (in particular at alive-count = total − 2). -/
theorem first_death_logged_iff_alive_eq_total_sub_one (player : Player)
    (team : String) (snap : Snapshot) (st : TacticalLoggerState) :
    (process_change (ChangeEvent.playerDied player team) snap st).event_log
      = st.event_log ++
        (if ((snap.players.filter (fun pp => pp.2.alive)).length : ℤ)
             = (snap.players.length : ℤ) - 1 then
           [{ event_type := "FIRST_DEATH"
              description := "First death of the round: " ++ player.name ++
                " (" ++ player.team_name ++ ")"
              metadata := [("player", player.name), ("team", player.team_name),
                ("position", player.position.region_rc ++ " (" ++
                  player.position.quadrant ++ ")"),
                ("side", player.side)] }]
         else []) := by
  by_cases h : ((snap.players.filter (fun pp => pp.2.alive)).length : ℤ)
      = (snap.players.length : ℤ) - 1
  · simp [process_change, h]
  · simp [process_change, h]

/-- C8: no matter which change events are processed, in which order and with
which repetitions, the conclusions list never contains two equal strings. -/
theorem conclusions_never_duplicated (inputs : List (ChangeEvent × Snapshot)) :
    ((inputs.foldl (fun lg cs => process_change cs.1 cs.2 lg)
        initLogger).conclusions).Nodup := by
  have main : ∀ (l : List (ChangeEvent × Snapshot)) (st : TacticalLoggerState),
      st.conclusions.Nodup →
      ((l.foldl (fun lg cs => process_change cs.1 cs.2 lg) st).conclusions).Nodup := by
    intro l
    induction l with
    | nil => exact fun st h => h
    | cons a rest ih =>
      intro st h
      exact ih _ (process_change_conclusions_nodup a.1 a.2 st h)
  exact main inputs initLogger List.nodup_nil

/-- C1 (code bug): a fetched series state with a non-empty row list is
accepted by the poll tick, yet the snapshot stored in history has an empty
player mapping — the loop never rejects empty-player snapshots. -/
theorem empty_players_snapshot_stored :
    build_rows_from_series_state ssMin ≠ [] ∧
    (run_tick "2629390" initPollState (some ssMin) "t0").1.snapshot_history.map
        Snapshot.players = [[]] := by
  constructor
  · decide
  · decide

/-- C4 counterexample: in the trace of an accepted tick both the diff and the
persist operations occur, but the diff does not precede the persist — the
snapshot is appended and persisted before the differ runs. -/
theorem diff_does_not_precede_persist :
    PollOp.diffSnapshots ∈ (run_tick "2629390" initPollState (some ssMin) "t0").2 ∧
    PollOp.persistHistory ∈ (run_tick "2629390" initPollState (some ssMin) "t0").2 ∧
    ¬ ((run_tick "2629390" initPollState (some ssMin) "t0").2.indexOf
          PollOp.diffSnapshots
        < (run_tick "2629390" initPollState (some ssMin) "t0").2.indexOf
            PollOp.persistHistory) := by
  refine ⟨by decide, by decide, by decide⟩

/-- C4 amended: within each accepted tick the operations occur in the strict
order append-to-history → persist → diff → detect (once per change event) →
set previous. -/
theorem tick_operation_order (sid : String) (st : PollState)
    (fetched : Option SeriesStateJson) (now : String) (snap : Snapshot)
    (h : poll_snapshot fetched sid now = some snap) :
    (run_tick sid st fetched now).2
      = [PollOp.appendHistory, PollOp.persistHistory, PollOp.diffSnapshots]
        ++ (diff st.last_snapshot snap).map (fun _ => PollOp.detect)
        ++ [PollOp.setPrevious] := by
  unfold run_tick
  rw [h]

/-- C4 witness: the amended order at a concrete accepted tick. -/
theorem tick_operation_order_witness :
    poll_snapshot (some ssMin) "2629390" "t0" = some wSnap ∧
    (run_tick "2629390" initPollState (some ssMin) "t0").2
      = [PollOp.appendHistory, PollOp.persistHistory, PollOp.diffSnapshots,
         PollOp.setPrevious] :=
  ⟨by decide,
   (tick_operation_order "2629390" initPollState (some ssMin) "t0" wSnap
       (by decide)).trans (by decide)⟩

/-- C3: when old and new snapshots share their player ids and exactly one
player's alive flag flips true→false with no other field of any player
changed, `diff` returns exactly that player's `PLAYER_DIED` event and nothing
else; and `diff(None, S)` is empty for every `S`. -/
theorem diff_detects_single_death (old new : Snapshot) (dpid : String)
    (dp : Player)
    (hkeys : (new.players.map Prod.fst).Nodup)
    (hmem : (dpid, dp) ∈ new.players)
    (halive : dp.alive = false)
    (hold : old.players.lookup dpid = some { dp with alive := true })
    (hothers : ∀ pp ∈ new.players, pp.1 ≠ dpid →
      old.players.lookup pp.1 = some pp.2) :
    diff (some old) new = [ChangeEvent.playerDied dp dp.team_name]
      ∧ ∀ s : Snapshot, diff none s = [] :=
  ⟨diff_players_single old.players dpid dp halive hold new.players hkeys hmem
     hothers,
   fun _ => rfl⟩

/-- C3 witness: a two-player snapshot pair where only `p1` dies. -/
theorem diff_detects_single_death_witness :
    diff (some wOld) wNew = [ChangeEvent.playerDied wPlayerDead "Alpha"] ∧
    diff none wNew = [] := by
  have h := diff_detects_single_death wOld wNew "p1" wPlayerDead (by decide)
    (by decide) (by decide) (by decide) (by decide)
  exact ⟨h.1.trans (by decide), h.2 wNew⟩

/-- C5 counterexample: after 51 accepted poll ticks the in-memory history list
holds 51 snapshots — it is not bounded by 50. -/
theorem in_memory_history_unbounded :
    ¬ ((run_polling "2629390" initPollState
          (List.replicate 51 (some ssMin, "t"))).snapshot_history.length ≤ 50) := by
  decide

/-- C5 amended: the bounded rolling window applies to the persisted
projection, not the in-memory list: after every tick the persisted file (once
written) is the serialization of the at most 50 most recent in-memory
snapshots — `save_history` keeps `takeLast 50`, evicting oldest first — and so
has at most 50 entries. -/
theorem persisted_window_bounded (sid : String)
    (inputs : List (Option SeriesStateJson × String)) :
    ((run_polling sid initPollState inputs).history_file = none ∧
       (run_polling sid initPollState inputs).snapshot_history = []) ∨
    ((run_polling sid initPollState inputs).history_file
        = some (save_history (run_polling sid initPollState inputs).snapshot_history) ∧
     (save_history (run_polling sid initPollState inputs).snapshot_history).length
       ≤ 50) := by
  rcases run_polling_file_inv sid inputs initPollState (Or.inl ⟨rfl, rfl⟩) with h | h
  · exact Or.inl h
  · exact Or.inr ⟨h, save_history_length_le _⟩

/-- C10: every successful `poll_snapshot` result has an empty player mapping;
consequently the differ emits no change events for snapshots it produced, and
every persisted history entry of such snapshots has an empty players object. -/
theorem poll_snapshot_yields_empty_players :
    (∀ (fetched : Option SeriesStateJson) (sid now : String) (s : Snapshot),
        poll_snapshot fetched sid now = some s → s.players = []) ∧
    (∀ s1 s2 : Snapshot, s2.players = [] → diff (some s1) s2 = []) ∧
    (∀ hist : List Snapshot, (∀ s ∈ hist, s.players = []) →
        ∀ e ∈ save_history hist, e.players = []) := by
  refine ⟨?_, ?_, ?_⟩
  · intro fetched sid now s h
    cases fetched with
    | none => simp [poll_snapshot] at h
    | some state =>
      cases hr : build_rows_from_series_state state with
      | nil => simp [poll_snapshot, hr] at h
      | cons r rest =>
        simp only [poll_snapshot, hr, Option.some.injEq] at h
        subst h
        rfl
  · intro s1 s2 h
    show diff_players s1.players s2.players = []
    rw [h]
    rfl
  · intro hist hall e he
    unfold save_history at he
    rw [List.mem_map] at he
    obtain ⟨s, hs, rfl⟩ := he
    have hsp : s.players = [] := hall s (List.mem_of_mem_drop hs)
    simp [serializeSnap, hsp]

/-- C10 witness: the snapshot polled from `ssMin` — empty players, no diff
events against itself, empty persisted players object. -/
theorem poll_snapshot_yields_empty_players_witness :
    wSnap.players = [] ∧ diff (some wSnap) wSnap = [] ∧
    (serializeSnap wSnap).players = [] := by
  have h1 := poll_snapshot_yields_empty_players.1 (some ssMin) "2629390" "t0"
    wSnap (by decide)
  have h2 := poll_snapshot_yields_empty_players.2.1 wSnap wSnap h1
  have h3 := poll_snapshot_yields_empty_players.2.2 [wSnap]
    (by intro s hs; rw [List.mem_singleton] at hs; subst hs; exact h1)
    (serializeSnap wSnap) (by decide)
  exact ⟨h1, h2, h3⟩

/-- One debounce step of the code simulates one step of the spec's policy:
same surfaced flag, and the simulation relation is preserved, provided the
wall-clock time exceeds the cooldown. -/
theorem debounce_step_rel (st : LastEventTime) (sst : LastSurfaced)
    (h : debounceRel st sst) (t : ℚ) (ht : EVENT_COOLDOWN < t) (e : String) :
    (debounceStep st t e).2 = (debounceSpecStep sst t e).2 ∧
      debounceRel (debounceStep st t e).1 (debounceSpecStep sst t e).1 := by
  obtain ⟨h1, h2, h3⟩ := h
  by_cases ek : e = "KILL"
  · subst ek
    cases hk : sst.kill with
    | none =>
      have h0 : st.kill = 0 := by rw [h1, hk]; rfl
      have hcond : t - st.kill > EVENT_COOLDOWN := by rw [h0]; simpa using ht
      simp [debounceStep, debounceSpecStep, lookupLET, lookupLS, hk, hcond,
        setLET, setLS, debounceRel, h2, h3]
    | some ts =>
      have hts : st.kill = ts := by rw [h1, hk]; rfl
      by_cases hc : t - ts > EVENT_COOLDOWN
      · simp [debounceStep, debounceSpecStep, lookupLET, lookupLS, hk, hts, hc,
          setLET, setLS, debounceRel, h2, h3]
      · simp [debounceStep, debounceSpecStep, lookupLET, lookupLS, hk, hts, hc,
          debounceRel, h1, h2, h3]
  · by_cases ed : e = "DEATH"
    · subst ed
      cases hk : sst.death with
      | none =>
        have h0 : st.death = 0 := by rw [h2, hk]; rfl
        have hcond : t - st.death > EVENT_COOLDOWN := by rw [h0]; simpa using ht
        simp [debounceStep, debounceSpecStep, lookupLET, lookupLS, hk, hcond,
          setLET, setLS, debounceRel, h1, h3]
      | some ts =>
        have hts : st.death = ts := by rw [h2, hk]; rfl
        by_cases hc : t - ts > EVENT_COOLDOWN
        · simp [debounceStep, debounceSpecStep, lookupLET, lookupLS, hk, hts,
            hc, setLET, setLS, debounceRel, h1, h3]
        · simp [debounceStep, debounceSpecStep, lookupLET, lookupLS, hk, hts,
            hc, debounceRel, h1, h2, h3]
    · by_cases er : e = "ROUND_END"
      · subst er
        cases hk : sst.roundEnd with
        | none =>
          have h0 : st.roundEnd = 0 := by rw [h3, hk]; rfl
          have hcond : t - st.roundEnd > EVENT_COOLDOWN := by
            rw [h0]; simpa using ht
          simp [debounceStep, debounceSpecStep, lookupLET, lookupLS, hk, hcond,
            setLET, setLS, debounceRel, h1, h2]
        | some ts =>
          have hts : st.roundEnd = ts := by rw [h3, hk]; rfl
          by_cases hc : t - ts > EVENT_COOLDOWN
          · simp [debounceStep, debounceSpecStep, lookupLET, lookupLS, hk, hts,
              hc, setLET, setLS, debounceRel, h1, h2]
          · simp [debounceStep, debounceSpecStep, lookupLET, lookupLS, hk, hts,
              hc, debounceRel, h1, h2, h3]
      · simp only [debounceStep, debounceSpecStep, lookupLET, lookupLS,
          if_neg ek, if_neg ed, if_neg er]
        split_ifs <;> exact ⟨rfl, h1, h2, h3⟩

/-- The debounce loop of the code computes the same surfaced flags as the
spec's policy from related states, provided all timestamps exceed the
cooldown. -/
theorem run_debounce_rel :
    ∀ (trace : List (ℚ × String)) (st : LastEventTime) (sst : LastSurfaced),
      debounceRel st sst → (∀ p ∈ trace, EVENT_COOLDOWN < p.1) →
      runDebounce st trace = runDebounceSpec sst trace := by
  intro trace
  induction trace with
  | nil => intro st sst _ _; rfl
  | cons a rest ih =>
    intro st sst h hT
    obtain ⟨t, e⟩ := a
    have ht := hT (t, e) (List.mem_cons_self _ _)
    obtain ⟨hb, hrel⟩ := debounce_step_rel st sst h t ht e
    simp only [runDebounce, runDebounceSpec]
    rw [hb]
    congr 1
    exact ih (debounceStep st t e).1 (debounceSpecStep sst t e).1 hrel
      (fun p hp => hT p (List.mem_cons_of_mem _ hp))

/-- C6: over any wall-clock trace of classification results (all timestamps
past the 2-second cooldown, as real epoch times are), the code's
debounce-and-report loop surfaces exactly the events of the spec's policy: an
actionable label iff strictly more than the cooldown has elapsed since that
label was last surfaced (first occurrence always), `NO_EVENT` and error
sentinels always. -/
theorem debounce_matches_cooldown_policy (trace : List (ℚ × String))
    (h : ∀ p ∈ trace, EVENT_COOLDOWN < p.1) :
    runDebounce initLastEventTime trace = runDebounceSpec initLastSurfaced trace :=
  run_debounce_rel trace initLastEventTime initLastSurfaced ⟨rfl, rfl, rfl⟩ h

/-- C6 witness: a concrete trace — two `KILL`s within the cooldown, a third
past it, repeated `NO_EVENT`s, an error sentinel. -/
theorem debounce_matches_cooldown_policy_witness :
    (∀ p ∈ wTrace, EVENT_COOLDOWN < p.1) ∧
    runDebounce initLastEventTime wTrace = runDebounceSpec initLastSurfaced wTrace :=
  ⟨by decide, debounce_matches_cooldown_policy wTrace (by decide)⟩

/-- `matchesAt` is exactly the list prefix relation. -/
theorem matchesAt_iff (pat : List Char) :
    ∀ l : List Char, (matchesAt pat l = true ↔ pat <+: l) := by
  induction pat with
  | nil => intro l; simp [matchesAt]
  | cons c cs ih =>
    intro l
    cases l with
    | nil => simp [matchesAt]
    | cons d ds => simp [matchesAt, ih, List.cons_prefix_cons]

/-- Python substring containment is exactly the list infix relation. -/
theorem containsSub_iff (pat : List Char) :
    ∀ l : List Char, (containsSub pat l = true ↔ pat <:+: l) := by
  intro l
  induction l with
  | nil => simp [containsSub, matchesAt_iff]
  | cons d ds ih => simp [containsSub, matchesAt_iff, ih, List.infix_cons_iff]

/-- `Char.toUpper` fixes whitespace characters. -/
theorem ws_toUpper (c : Char) (h : c.isWhitespace = true) : c.toUpper = c := by
  simp only [Char.isWhitespace, Bool.or_eq_true, decide_eq_true_eq] at h
  rcases h with ((h | h) | h) | h <;> subst h <;> decide

/-- Dropping a leading run of `q`-characters from `l` does not change whether
`pat` — whose first character maps outside `q` — occurs in the `f`-image,
provided `f` fixes `q`-characters. -/
theorem occurs_in_map_dropWhile (f : Char → Char) (q : Char → Bool)
    (hf : ∀ c, q c = true → f c = c) (c0 : Char) (pat : List Char)
    (hpat : pat.head? = some c0) (hc0 : q c0 = false) :
    ∀ l : List Char, (pat <:+: (l.dropWhile q).map f ↔ pat <:+: l.map f) := by
  intro l
  induction l with
  | nil => simp
  | cons c cl ih =>
    by_cases hq : q c = true
    · rw [List.dropWhile_cons_of_pos hq, List.map_cons]
      constructor
      · intro hin
        exact List.infix_cons (ih.mp hin)
      · intro hin
        rcases List.infix_cons_iff.mp hin with hp | hi
        · exfalso
          cases pat with
          | nil => simp at hpat
          | cons p0 ps =>
            have hp0 : p0 = c0 := by simpa using hpat
            obtain ⟨heq, -⟩ := List.cons_prefix_cons.mp hp
            rw [hf c hq] at heq
            rw [hp0] at heq
            rw [heq] at hc0
            rw [hq] at hc0
            cases hc0
        · exact ih.mpr hi
    · rw [List.dropWhile_cons_of_neg hq]

/-- Python `strip()` does not change whether a pattern with non-whitespace
first and last characters occurs in the upper-cased text. -/
theorem occurs_in_map_pyStripChars (pat : List Char) (c0 cl : Char)
    (hh : pat.head? = some c0) (hc0 : c0.isWhitespace = false)
    (hl : pat.getLast? = some cl) (hcl : cl.isWhitespace = false)
    (l : List Char) :
    pat <:+: (pyStripChars l).map Char.toUpper ↔
      pat <:+: l.map Char.toUpper := by
  have hrevhead : pat.reverse.head? = some cl := by
    rw [List.head?_reverse]; exact hl
  unfold pyStripChars
  constructor
  · intro hin
    have h1 : pat.reverse <:+:
        ((l.dropWhile Char.isWhitespace).reverse.dropWhile
            Char.isWhitespace).map Char.toUpper := by
      rw [List.map_reverse] at hin
      have h1a := List.reverse_infix.mpr hin
      rwa [List.reverse_reverse] at h1a
    have h2 := (occurs_in_map_dropWhile Char.toUpper Char.isWhitespace ws_toUpper
      cl pat.reverse hrevhead hcl ((l.dropWhile Char.isWhitespace).reverse)).mp h1
    rw [List.map_reverse] at h2
    have h3 : pat <:+: (l.dropWhile Char.isWhitespace).map Char.toUpper :=
      List.reverse_infix.mp h2
    exact (occurs_in_map_dropWhile Char.toUpper Char.isWhitespace ws_toUpper
      c0 pat hh hc0 l).mp h3
  · intro hin
    have h3 := (occurs_in_map_dropWhile Char.toUpper Char.isWhitespace ws_toUpper
      c0 pat hh hc0 l).mpr hin
    have h2 : pat.reverse <:+:
        ((l.dropWhile Char.isWhitespace).map Char.toUpper).reverse :=
      List.reverse_infix.mpr h3
    rw [← List.map_reverse] at h2
    have h1 := (occurs_in_map_dropWhile Char.toUpper Char.isWhitespace ws_toUpper
      cl pat.reverse hrevhead hcl ((l.dropWhile Char.isWhitespace).reverse)).mpr h2
    have h0 := List.reverse_infix.mpr h1
    rw [List.reverse_reverse, ← List.map_reverse] at h0
    exact h0

/-- Stripping before upper-casing does not change label containment, for the
four labels (non-whitespace first/last characters). -/
theorem containsSub_upper_strip (pat : List Char) (c0 cl : Char)
    (hh : pat.head? = some c0) (hc0 : c0.isWhitespace = false)
    (hl : pat.getLast? = some cl) (hcl : cl.isWhitespace = false)
    (r : List Char) :
    containsSub pat (pyUpper (pyStripChars r)) = containsSub pat (pyUpper r) := by
  rw [Bool.eq_iff_iff, containsSub_iff, containsSub_iff]
  exact occurs_in_map_pyStripChars pat c0 cl hh hc0 hl hcl r

/-- C7: for every raw classifier response the parse returns the first of the
four labels contained as a substring of the upper-cased response (stripping
does not affect this), `NO_EVENT` when none is contained; on request failure
it returns the `ERROR`-prefixed sentinel; the request timeout is 5 s; the
function is total (never raises). -/
theorem query_vlm_first_contained_label (r e : List Char) :
    query_vlm (Except.ok r) = spec_first_label (pyUpper r) ∧
    query_vlm (Except.error e) = ("ERROR: ").data ++ e ∧
    ("ERROR").data <+: query_vlm (Except.error e) ∧
    REQUEST_TIMEOUT = 5 := by
  refine ⟨?_, rfl, ⟨(':' :: ' ' :: e), rfl⟩, rfl⟩
  show parseLabel (pyUpper (pyStripChars r)) = spec_first_label (pyUpper r)
  unfold parseLabel spec_first_label LABELS
  simp only [List.find?_cons, List.find?_nil]
  rw [containsSub_upper_strip ("KILL").data 'K' 'L' (by decide) (by decide)
      (by decide) (by decide) r,
    containsSub_upper_strip ("DEATH").data 'D' 'H' (by decide) (by decide)
      (by decide) (by decide) r,
    containsSub_upper_strip ("ROUND_END").data 'R' 'D' (by decide) (by decide)
      (by decide) (by decide) r,
    containsSub_upper_strip ("NO_EVENT").data 'N' 'T' (by decide) (by decide)
      (by decide) (by decide) r]

end Valorant
